import Mathlib

set_option maxRecDepth 10000

/-!
Shallow embedding of the AirLight AI prediction service
(`Service_IA/app_improved.py`): input sanitization, feature preparation,
ensemble-training bookkeeping, the US-EPA AQI conversion and the recursive
forecast loop, together with the `/predict` and `/model/retrain` routes.

Modelling conventions:
* Machine floats are modelled as exact rationals; the IEEE special values
  (`inf`, `-inf`, `nan`) that the pandas layer manipulates are modelled by
  the `PyVal` type.  Float overflow is not modelled.
* The sklearn / tensorflow numeric kernels (regressor fits and predictions,
  per-fold r2 scores, the final-evaluation metrics) and the float
  transcendental functions (sin, cos, sqrt) are not reimplementable from
  the source; they enter as explicit oracle parameters (`FloatOps`,
  `TrainOracle`, the per-step prediction oracle of the forecast loop).
  No theorem below depends on the values these oracles return.
-/

/-- Value of one cell of a numeric pandas column: a finite float
(modelled as an exact rational) or one of the IEEE specials. -/
inductive PyVal where
  | num (q : ℚ)
  | posInf
  | negInf
  | nan
  deriving DecidableEq, Repr, Inhabited

/-- Kernel-computable maximum on the rationals (equal to `max`, see
`maxQ_eq`); used so that concrete runs of the embedding reduce inside
the kernel. -/
def maxQ (a b : ℚ) : ℚ := if a ≤ b then b else a

/-- Kernel-computable minimum on the rationals (equal to `min`, see
`minQ_eq`). -/
def minQ (a b : ℚ) : ℚ := if a ≤ b then a else b

/-- Kernel-computable absolute value on the rationals (equal to `|.|`,
see `absQ_eq`). -/
def absQ (a : ℚ) : ℚ := if a < 0 then -a else a

/-- Kernel-computable floor of a rational (equal to `Int.floor`, see
`floorQ_eq`). -/
def floorQ (q : ℚ) : ℤ := q.num / q.den

/-- `np.isfinite` on one value. -/
def PyVal.isFinite : PyVal → Bool
  | .num _ => true
  | _ => false

/-- Extraction of the rational carried by a finite value (junk 0 on the
specials; used only after the sanitizer has established finiteness). -/
def toQ : PyVal → ℚ
  | .num q => q
  | _ => 0

/-- One cell of `df.replace([np.inf, -np.inf], np.nan)`. -/
def replaceInf : PyVal → PyVal
  | .posInf => .nan
  | .negInf => .nan
  | v => v

/-- One cell of `Series.clip(lower=lo)`: NaN passes through, `-inf`
saturates to the bound. -/
def clipLower (lo : ℚ) : PyVal → PyVal
  | .num q => .num (maxQ q lo)
  | .posInf => .posInf
  | .negInf => .num lo
  | .nan => .nan

/-- One cell of `Series.clip(upper=hi)`: NaN passes through, `inf`
saturates to the bound. -/
def clipUpper (hi : ℚ) : PyVal → PyVal
  | .num q => .num (minQ q hi)
  | .posInf => .num hi
  | .negInf => .negInf
  | .nan => .nan

/-- Python float `x % m` for a positive modulus `m`; non-finite
operands give NaN. -/
def pymod (m : ℚ) : PyVal → PyVal
  | .num q => .num (q - m * floorQ (q / m))
  | _ => .nan

/-- Insertion into a sorted list of rationals. -/
def insertQ (x : ℚ) : List ℚ → List ℚ
  | [] => [x]
  | y :: ys => if x ≤ y then x :: y :: ys else y :: insertQ x ys

/-- Ascending sort of a list of rationals. -/
def sortQ : List ℚ → List ℚ
  | [] => []
  | x :: xs => insertQ x (sortQ xs)

/-- The finite entries of a column, in order. -/
def finiteVals (col : List PyVal) : List ℚ :=
  col.filterMap fun v => match v with | .num q => some q | _ => none

/-- Linear-interpolation quantile of a nonempty ascending list, as
computed by `numpy.percentile(..., interpolation="linear")` and pandas
`Series.quantile`. -/
def quantileSorted (s : List ℚ) (q : ℚ) : ℚ :=
  let pos : ℚ := q * ((s.length : ℚ) - 1)
  let i : ℕ := (floorQ pos).toNat
  let frac : ℚ := pos - floorQ pos
  let a := s.getD i 0
  let b := s.getD (i + 1) a
  a + frac * (b - a)

/-- pandas `Series.quantile(q)`: NaN entries are skipped; NaN when the
column holds no finite value. -/
def pandasQuantile (col : List PyVal) (q : ℚ) : PyVal :=
  let s := sortQ (finiteVals col)
  if s = [] then .nan else .num (quantileSorted s q)

/-- pandas `Series.median()` (NaN-skipping). -/
def pandasMedian (col : List PyVal) : PyVal := pandasQuantile col (1/2)

/-- The per-column 1%/99% winsorization step of `clean_infinite_values`
(lines 57-63): clip only when both quantiles are not NaN. -/
def cleanClipCol (col : List PyVal) : List PyVal :=
  match pandasQuantile col (1/100), pandasQuantile col (99/100) with
  | .num q1, .num q99 => col.map fun v => clipUpper q99 (clipLower q1 v)
  | _, _ => col

/-- The per-column median imputation step of `clean_infinite_values`
(lines 65-73): if any NaN is present, fill NaN cells with the column
median, or with 0 when the median itself is NaN. -/
def cleanFillCol (col : List PyVal) : List PyVal :=
  if col.contains .nan then
    let m : ℚ := match pandasMedian col with | .num q => q | _ => 0
    col.map fun v => if v = .nan then .num m else v
  else col

/-- The final verification step of `clean_infinite_values` (lines 75-79):
if a column still holds a non-finite cell, zero out the non-finite cells. -/
def cleanFiniteCheckCol (col : List PyVal) : List PyVal :=
  if col.all PyVal.isFinite then col
  else col.map fun v => if v.isFinite then v else .num 0

/-- `clean_infinite_values(df, method)` (app_improved.py lines 51-86),
acting on the numeric columns of the frame: replace infinities with NaN,
winsorize at the 1%/99% quantiles when `method == "clip"`, impute NaN
with the column median (0 fallback), then force any remaining
non-finite cell to 0. -/
def clean_infinite_values (df : List (List PyVal)) (method : String) : List (List PyVal) :=
  let df1 := df.map (List.map replaceInf)
  let df2 := if method = "clip" then df1.map cleanClipCol else df1
  let df3 := df2.map cleanFillCol
  df3.map cleanFiniteCheckCol

/-- The sanitizer's exception branch (line 86):
`df.fillna(0).replace([np.inf, -np.inf], 0)`. -/
def cleanFallback (df : List (List PyVal)) : List (List PyVal) :=
  df.map (List.map fun v =>
    match v with
    | .nan => .num 0
    | .posInf => .num 0
    | .negInf => .num 0
    | x => x)

/-- Whole-frame finiteness check. -/
def allFiniteDF (df : List (List PyVal)) : Bool :=
  df.all fun col => col.all PyVal.isFinite

/-- One raw input record (the JSON observation dict sent to the service).
The timestamp is the `pd.to_datetime`-parsed value, modelled as epoch
seconds; all numeric fields are raw floats.  All required columns are
present (requests with missing columns are rejected before the code
settled here runs and are outside the claims). -/
structure RawObs where
  timestamp : ℤ
  pm25 : PyVal
  pm10 : PyVal
  co2 : PyVal
  temperature : PyVal
  humidity : PyVal
  hour : PyVal
  dayOfWeek : PyVal
  month : PyVal
  aqi : PyVal
  deriving DecidableEq, Repr, Inhabited

/-- One validated observation row: after `validate_input_data` every
numeric cell is finite (the sanitizer's postcondition, proved below), so
the fields are plain rationals. -/
structure VObs where
  timestamp : ℤ
  pm25 : ℚ
  pm10 : ℚ
  co2 : ℚ
  temperature : ℚ
  humidity : ℚ
  hour : ℚ
  dayOfWeek : ℚ
  month : ℚ
  aqi : ℚ
  deriving DecidableEq, Repr, Inhabited

/-- `AirQualityPredictor.validate_input_data` (lines 126-177): reject an
empty frame, clamp each column to its physical range (pm25/pm10 to
[0,1000], co2 to [300,10000], aqi to [0,500], temperature to [-50,60],
humidity to [0,100], hour mod 24, dayOfWeek mod 7, month clipped to
[1,12]), then run `clean_infinite_values`.  Note: this function does NOT
sort by timestamp; sorting happens later, in `prepare_features`. -/
def validate_input_data (data : List RawObs) : Option (List VObs) :=
  if data = [] then none else
  let pm25c := data.map fun o => clipUpper 1000 (clipLower 0 o.pm25)
  let pm10c := data.map fun o => clipUpper 1000 (clipLower 0 o.pm10)
  let co2c := data.map fun o => clipUpper 10000 (clipLower 300 (clipLower 0 o.co2))
  let aqic := data.map fun o => clipUpper 500 (clipLower 0 o.aqi)
  let tempc := data.map fun o => clipUpper 60 (clipLower (-50) o.temperature)
  let humc := data.map fun o => clipUpper 100 (clipLower 0 o.humidity)
  let hourc := data.map fun o => pymod 24 o.hour
  let dowc := data.map fun o => pymod 7 o.dayOfWeek
  let monthc := data.map fun o => clipUpper 12 (clipLower 1 o.month)
  let cleaned :=
    clean_infinite_values [pm25c, pm10c, co2c, tempc, humc, hourc, dowc, monthc, aqic] "clip"
  let ts := data.map (·.timestamp)
  some ((List.range data.length).map fun i =>
    { timestamp := ts.getD i 0
      pm25 := toQ ((cleaned.getD 0 []).getD i .nan)
      pm10 := toQ ((cleaned.getD 1 []).getD i .nan)
      co2 := toQ ((cleaned.getD 2 []).getD i .nan)
      temperature := toQ ((cleaned.getD 3 []).getD i .nan)
      humidity := toQ ((cleaned.getD 4 []).getD i .nan)
      hour := toQ ((cleaned.getD 5 []).getD i .nan)
      dayOfWeek := toQ ((cleaned.getD 6 []).getD i .nan)
      month := toQ ((cleaned.getD 7 []).getD i .nan)
      aqi := toQ ((cleaned.getD 8 []).getD i .nan) })

/-- Insertion into a timestamp-sorted list of validated rows. -/
def insertVObs (x : VObs) : List VObs → List VObs
  | [] => [x]
  | y :: ys => if x.timestamp ≤ y.timestamp then x :: y :: ys else y :: insertVObs x ys

/-- `df.sort_values('timestamp')` (line 189).  pandas leaves the order of
equal timestamps unspecified (quicksort); a stable insertion sort is the
modelling choice, and no claim below depends on the order of ties. -/
def sortVObs : List VObs → List VObs
  | [] => []
  | x :: xs => insertVObs x (sortVObs xs)

/-- Oracle for the float transcendental kernel: `sin2pi f` stands for the
IEEE value of `sin(2*pi*f)` (similarly `cos2pi`), and `sqrtQ` for `sqrt`.
These real-valued library calls have no exact rational representation;
no claim settled below depends on the values they return. -/
structure FloatOps where
  sin2pi : ℚ → ℚ
  cos2pi : ℚ → ℚ
  sqrtQ : ℚ → ℚ

/-- Mean of a list (`Series.mean`); junk 0 on the empty list. -/
def meanQ (l : List ℚ) : ℚ := if l = [] then 0 else l.sum / l.length

/-- Sample variance with `ddof = 1` (pandas default); meaningful only for
lists of length at least 2. -/
def sampleVar (l : List ℚ) : ℚ :=
  (l.map fun x => (x - meanQ l) ^ 2).sum / ((l.length : ℚ) - 1)

/-- The trailing window pandas `rolling(window=w, min_periods=1)` sees at
row `i`: the last `min (i+1) w` values up to and including row `i`. -/
def windowAt (xs : List ℚ) (w i : ℕ) : List ℚ := (xs.take (i + 1)).drop (i + 1 - w)

/-- `Series.rolling(w, min_periods=1).mean()`. -/
def rollingMean (w : ℕ) (xs : List ℚ) : List ℚ :=
  (List.range xs.length).map fun i => meanQ (windowAt xs w i)

/-- `Series.rolling(w, min_periods=1).std()` followed by
`np.where(np.isfinite(.), ., 0)` (lines 232-236): the size-1 window gives
NaN (ddof = 1) which the guard turns into 0. -/
def rollingStd (ops : FloatOps) (w : ℕ) (xs : List ℚ) : List ℚ :=
  (List.range xs.length).map fun i =>
    let win := windowAt xs w i
    if win.length ≤ 1 then 0 else ops.sqrtQ (sampleVar win)

/-- `Series.rolling(24, min_periods=1).quantile(q)` (linear
interpolation). -/
def rollingQuantile (w : ℕ) (q : ℚ) (xs : List ℚ) : List ℚ :=
  (List.range xs.length).map fun i => quantileSorted (sortQ (windowAt xs w i)) q

/-- `Series.diff(lag)` followed by `np.where(np.isfinite(.), ., 0)`
(lines 249-254): leading NaN positions become 0. -/
def diffLag (lag : ℕ) (xs : List ℚ) : List ℚ :=
  (List.range xs.length).map fun i =>
    if i < lag then 0 else xs.getD i 0 - xs.getD (i - lag) 0

/-- `Series.pct_change(lag)` followed by `np.where(np.isfinite(.), ., 0)`
(lines 257-262): leading NaNs and divisions by zero become 0. -/
def pctChange (lag : ℕ) (xs : List ℚ) : List ℚ :=
  (List.range xs.length).map fun i =>
    if i < lag then 0
    else
      let prev := xs.getD (i - lag) 0
      if prev = 0 then 0 else (xs.getD i 0 - prev) / prev

/-- `Series.shift(lag).fillna(method='bfill').fillna(mean)` (lines
268-277): row `i` carries `xs[i-lag]`, leading gaps are back-filled with
`xs[0]`, and a column that is entirely NaN (lag at least the length)
falls back to the column mean. -/
def lagBfillMean (lag : ℕ) (xs : List ℚ) : List ℚ :=
  (List.range xs.length).map fun i =>
    if lag ≤ i then xs.getD (i - lag) 0
    else if lag < xs.length then xs.getD 0 0
    else meanQ xs

/-- `safe_division` (lines 38-49) restricted to finite elementwise
operands: where the denominator is 0 the fallback is used (the
non-finite results numpy would produce are exactly the zero-denominator
positions). -/
def safe_division (n d fb : ℚ) : ℚ := if d = 0 then fb else n / d

/-- `calculate_heat_index_safe` (lines 356-378): clip the operands to
their physical ranges, evaluate the fixed heat-index polynomial, and
keep plain temperature below 27 degrees. -/
def calculate_heat_index_safe (t h : ℚ) : ℚ :=
  let tc := minQ (maxQ t (-50)) 60
  let hc := minQ (maxQ h 0) 100
  let hi := -878469/100000 + 161139/100000 * tc + 233854/100000 * hc
      - 14611/100000 * (tc * hc) - 1230/100000 * tc ^ 2
      - 1642/100000 * hc ^ 2 + 221/100000 * (tc ^ 2 * hc)
      + 72/100000 * (tc * hc ^ 2)
  if tc < 27 then tc else hi

/-- Final sanitization pass of `prepare_features` (line 347): the feature
frame, all of whose cells are finite by construction here, goes through
`clean_infinite_values` once more — only the 1%/99% winsorization has an
effect. -/
def cleanQCols (cols : List (String × List ℚ)) : List (String × List ℚ) :=
  List.zip (cols.map Prod.fst)
    ((clean_infinite_values (cols.map fun p => p.2.map PyVal.num) "clip").map (·.map toQ))

/-- `AirQualityPredictor.prepare_features` (lines 179-354): validate,
sort by timestamp, then build the feature frame column by column in the
order of the source.  The result is the list of (column-name, column)
pairs; `none` models the `(None, error)` return when validation fails.
The guards of the form `if np.isfinite(...).all()` in the source select
the computed column whenever it is finite, which in this exact-rational
model is always; the corresponding fallback columns are therefore not
reachable and are noted per feature in the helper definitions above. -/
def prepare_features (ops : FloatOps) (data : List RawObs) : Option (List (String × List ℚ)) :=
  match validate_input_data data with
  | none => none
  | some v0 =>
    let v := sortVObs v0
    let n := v.length
    let pm25 := v.map (·.pm25)
    let pm10 := v.map (·.pm10)
    let co2 := v.map (·.co2)
    let temp := v.map (·.temperature)
    let hum := v.map (·.humidity)
    let hr := v.map (·.hour)
    let dow := v.map (·.dayOfWeek)
    let mon := v.map (·.month)
    let aqi := v.map (·.aqi)
    let zscore : List ℚ :=
      if 2 ≤ n ∧ 0 < ops.sqrtQ (sampleVar pm25) then
        pm25.map fun x => (x - meanQ pm25) / ops.sqrtQ (sampleVar pm25)
      else pm25.map fun _ => 0
    let q25 := rollingQuantile 24 (1/4) pm25
    let q75 := rollingQuantile 24 (3/4) pm25
    let cols : List (String × List ℚ) :=
      [("pm25", pm25), ("pm10", pm10), ("co2", co2), ("temperature", temp),
       ("humidity", hum), ("hour", hr), ("dayOfWeek", dow), ("month", mon), ("aqi", aqi),
       ("hour_sin", hr.map fun x => ops.sin2pi (x / 24)),
       ("hour_cos", hr.map fun x => ops.cos2pi (x / 24)),
       ("day_sin", dow.map fun x => ops.sin2pi (x / 7)),
       ("day_cos", dow.map fun x => ops.cos2pi (x / 7)),
       ("month_sin", mon.map fun x => ops.sin2pi (x / 12)),
       ("month_cos", mon.map fun x => ops.cos2pi (x / 12)),
       ("is_weekend", dow.map fun x => if 5 ≤ x then (1 : ℚ) else 0),
       ("is_morning_rush", hr.map fun x => if 6 ≤ x ∧ x ≤ 9 then (1 : ℚ) else 0),
       ("is_evening_rush", hr.map fun x => if 17 ≤ x ∧ x ≤ 20 then (1 : ℚ) else 0),
       ("is_night", hr.map fun x => if 22 ≤ x ∨ x ≤ 5 then (1 : ℚ) else 0),
       ("pm25_ma_3", rollingMean 3 pm25), ("pm10_ma_3", rollingMean 3 pm10),
       ("pm25_ma_6", rollingMean 6 pm25), ("pm10_ma_6", rollingMean 6 pm10),
       ("pm25_ma_12", rollingMean 12 pm25), ("pm10_ma_12", rollingMean 12 pm10),
       ("pm25_ma_24", rollingMean 24 pm25), ("pm10_ma_24", rollingMean 24 pm10),
       ("pm25_std_6", rollingStd ops 6 pm25), ("pm25_std_24", rollingStd ops 24 pm25),
       ("pm_ratio", List.zipWith (fun a b => safe_division a (b + 1) (1/2)) pm25 pm10),
       ("pm25_diff_1", diffLag 1 pm25), ("pm25_diff_6", diffLag 6 pm25),
       ("pm25_diff_24", diffLag 24 pm25),
       ("pm25_pct_change_1", pctChange 1 pm25), ("pm25_pct_change_6", pctChange 6 pm25),
       ("pm25_lag_1", lagBfillMean 1 pm25), ("aqi_lag_1", lagBfillMean 1 aqi),
       ("pm25_lag_6", lagBfillMean 6 pm25), ("aqi_lag_6", lagBfillMean 6 aqi),
       ("pm25_lag_12", lagBfillMean 12 pm25), ("aqi_lag_12", lagBfillMean 12 aqi),
       ("pm25_lag_24", lagBfillMean 24 pm25), ("aqi_lag_24", lagBfillMean 24 aqi),
       ("heat_index", List.zipWith calculate_heat_index_safe temp hum),
       ("temp_humidity_interaction",
        List.zipWith (fun t h => safe_division (t * h) 100 20) temp hum),
       ("is_hot", temp.map fun t => if 30 < t then (1 : ℚ) else 0),
       ("is_humid", hum.map fun h => if 70 < h then (1 : ℚ) else 0),
       ("is_dry", hum.map fun h => if h < 30 then (1 : ℚ) else 0),
       ("pollution_index",
        (List.range n).map fun i =>
          pm25.getD i 0 * (1/2) + pm10.getD i 0 * (3/10) + maxQ (co2.getD i 0 - 400) 0 * (1/5)),
       ("pm25_zscore", zscore),
       ("is_anomaly", zscore.map fun z => if 2 < absQ z then (1 : ℚ) else 0),
       ("is_dry_season", mon.map fun x => if 11 ≤ x ∨ x ≤ 3 then (1 : ℚ) else 0),
       ("is_rainy_season", mon.map fun x => if 6 ≤ x ∧ x ≤ 9 then (1 : ℚ) else 0),
       ("pm25_quantile_25", q25), ("pm25_quantile_75", q75),
       ("pm25_iqr", List.zipWith (fun a b => a - b) q75 q25)]
    some (cleanQCols cols)

/-- The US-EPA PM2.5 breakpoint table of `calculate_aqi` (lines 684-692),
as (bp_low, bp_high, aqi_low, aqi_high) rows.  Note the gaps between
consecutive bands (12.0 to 12.1, 35.4 to 35.5, ...), exactly as in the
source. -/
def aqi_breakpoints : List (ℚ × ℚ × ℚ × ℚ) :=
  [(0, 12, 0, 50), (121/10, 177/5, 51, 100), (71/2, 277/5, 101, 150),
   (111/2, 752/5, 151, 200), (301/2, 1252/5, 201, 300),
   (501/2, 1752/5, 301, 400), (701/2, 2502/5, 401, 500)]

/-- The breakpoint scan of `calculate_aqi` (lines 694-699): the first
band containing the value yields the interpolated AQI clamped to
[0,500]; falling through every band returns 500. -/
def aqiScan : List (ℚ × ℚ × ℚ × ℚ) → ℚ → ℚ
  | [], _ => 500
  | (lo, hi, alo, ahi) :: rest, p =>
    if lo ≤ p ∧ p ≤ hi then maxQ 0 (minQ ((ahi - alo) / (hi - lo) * (p - lo) + alo) 500)
    else aqiScan rest p

/-- `AirQualityPredictor.calculate_aqi` (lines 679-701): clamp the input
to [0,1000], then scan the breakpoint table. -/
def calculate_aqi (pm25 : ℚ) : ℚ := aqiScan aqi_breakpoints (maxQ 0 (minQ pm25 1000))

/-- The union of the breakpoint bands of `aqi_breakpoints` and the
region above the top band: the complement of the six open inter-band
gaps (12,12.1), (35.4,35.5), (55.4,55.5), (150.4,150.5), (250.4,250.5)
and (350.4,350.5) on which the scan of `calculate_aqi` finds no band
and falls through to 500. -/
def aqiInBands (p : ℚ) : Prop :=
  p ≤ 12 ∨ (121/10 ≤ p ∧ p ≤ 177/5) ∨ (71/2 ≤ p ∧ p ≤ 277/5) ∨ (111/2 ≤ p ∧ p ≤ 752/5) ∨
  (301/2 ≤ p ∧ p ≤ 1252/5) ∨ (501/2 ≤ p ∧ p ≤ 1752/5) ∨ 701/2 ≤ p

/-- Python 3 `round` to an integer: round-half-to-even, modelled on the
ideal rational value. -/
def roundHalfEven (x : ℚ) : ℤ :=
  let f := floorQ x
  let r := x - f
  if r < 1/2 then f
  else if 1/2 < r then f + 1
  else if f % 2 = 0 then f else f + 1

/-- Python `round(x, d)`. -/
def roundTo (d : ℕ) (x : ℚ) : ℚ := (roundHalfEven (x * 10 ^ d) : ℚ) / 10 ^ d

/-- One contributing factor entry built by
`get_contributing_factors_safe` (lines 703-771). -/
structure ContribFactor where
  factor : String
  impact : String
  value : String
  deriving DecidableEq, Repr, Inhabited

/-- One emitted forecast point (the dict built at lines 618-626 /
661-669).  Timestamps are epoch seconds. -/
structure ForecastPoint where
  hour_ahead : ℕ
  predicted_pm25 : ℚ
  predicted_aqi : ℚ
  confidence : ℚ
  timestamp : ℤ
  contributing_factors : List ContribFactor
  modelVersion : String
  deriving DecidableEq, Repr, Inhabited

/-- The per-hour confidence formula of the forecast loop (line 607):
`max(0.3, min(0.9, 0.7 - (hour - 1) * 0.05))`. -/
def stepConfidence (hour : ℕ) : ℚ :=
  maxQ (3/10) (minQ (9/10) (7/10 - ((hour : ℚ) - 1) * (5/100)))

/-- A successful forecast step (lines 588-628): `v` is the
inverse-scaled ensemble prediction delivered by the model oracle, before
the [0,1000] clamp. -/
def normalPoint (factorsAt : ℕ → List ContribFactor) (baseTime : ℤ) (version : String)
    (hour : ℕ) (v : ℚ) : ForecastPoint :=
  let pred := maxQ 0 (minQ v 1000)
  { hour_ahead := hour
    predicted_pm25 := roundTo 2 pred
    predicted_aqi := roundTo 1 (calculate_aqi pred)
    confidence := roundTo 3 (stepConfidence hour)
    timestamp := baseTime + 3600 * hour
    contributing_factors := factorsAt hour
    modelVersion := version }

/-- The per-step exception handler of the forecast loop (lines 652-671):
the fallback point carries the raw last input pm25 (rounded for output),
confidence 0.3, no contributing factors, and the version string with the
"-fallback" suffix. -/
def fallbackPoint (baseTime : ℤ) (version : String) (lastPm25 : ℚ) (hour : ℕ) : ForecastPoint :=
  { hour_ahead := hour
    predicted_pm25 := roundTo 2 lastPm25
    predicted_aqi := roundTo 1 (calculate_aqi lastPm25)
    confidence := 3/10
    timestamp := baseTime + 3600 * hour
    contributing_factors := []
    modelVersion := version ++ "-fallback" }

/-- One iteration of the forecast loop: `stepOutcome hour = some v`
models the try-block reaching the append with inverse-scaled ensemble
prediction `v`; `none` models any exception inside the try-block before
the append (scaler transform, ensemble call, inverse transform). -/
def stepPoint (stepOutcome : ℕ → Option ℚ) (factorsAt : ℕ → List ContribFactor)
    (baseTime : ℤ) (lastPm25 : ℚ) (version : String) (hour : ℕ) : ForecastPoint :=
  match stepOutcome hour with
  | some v => normalPoint factorsAt baseTime version hour v
  | none => fallbackPoint baseTime version lastPm25 hour

/-- The hour loop of `AirQualityPredictor.predict` (lines 582-673):
`for hour in range(1, min(hours_ahead + 1, 25))`, one appended point per
iteration.  The sklearn-dependent numeric core of each step (scaler
transform, `predict_ensemble`, inverse transform) is the `stepOutcome`
oracle, and the contributing-factor list computed from the evolving
synthetic feature row (itself downstream of the model predictions) is
the `factorsAt` oracle; every field a claim below constrains (count,
hour_ahead, timestamp, confidence, the fallback fields) is independent
of both oracles. -/
def predictLoop (stepOutcome : ℕ → Option ℚ) (factorsAt : ℕ → List ContribFactor)
    (baseTime : ℤ) (lastPm25 : ℚ) (version : String) (hoursAhead : ℤ) : List ForecastPoint :=
  (List.range' 1 (min hoursAhead 24).toNat).map
    (stepPoint stepOutcome factorsAt baseTime lastPm25 version)

/-- Lifecycle of one of the two `RobustScaler` objects of the predictor:
`noneS` is the initial `None`, `unfittedS` a freshly constructed scaler
whose fit raised, and `fittedS`/`fittedT` a scaler identified by the
data it was fitted on (the sklearn fit itself is an external kernel; the
fitted object is determined by its fit data). -/
inductive ScalerSt where
  | noneS
  | unfittedS
  | fittedS (cols : List (String × List ℚ))
  | fittedT (targets : List ℚ)
  deriving DecidableEq

/-- Lifecycle of one regressor entry of `self.models`: missing from the
dict, freshly constructed but not (fully) fitted, or fitted on the full
training data. -/
inductive ModelSt where
  | absent
  | fresh
  | trained (x : List (String × List ℚ)) (y : List ℚ)
  deriving DecidableEq

/-- `self.ensemble_weights`. -/
structure EnsembleWeights where
  rf : ℚ
  gb : ℚ
  lstm : ℚ
  deriving DecidableEq, Repr

/-- The mutable state of the global `AirQualityPredictor` instance. -/
structure PredictorState where
  rf : ModelSt
  gb : ModelSt
  feature_scaler : ScalerSt
  target_scaler : ScalerSt
  ensemble_weights : EnsembleWeights
  model_version : String
  min_data_points : ℕ

/-- `AirQualityPredictor.__init__` (lines 108-124). -/
def initPredictor : PredictorState :=
  { rf := .absent, gb := .absent, feature_scaler := .noneS, target_scaler := .noneS,
    ensemble_weights := ⟨2/5, 3/10, 3/10⟩, model_version := "2.2", min_data_points := 48 }

/-- Outcome of one cross-validation fold of the training loop (lines
449-467), as reported by the sklearn oracle: both scores computed, the
rf fit/score raising (both variants then get the neutral 0.5), or the gb
fit/score raising after the rf score was already appended. -/
inductive FoldRes where
  | ok (rfScore gbScore : ℚ)
  | rfFail
  | gbFail (rfScore : ℚ)

/-- Oracle for the sklearn-dependent parts of `train_model`: the r2
outcome of each of the 3 `TimeSeriesSplit` folds, whether the final
full-data fit (lines 470-475) succeeds, and the final-evaluation metrics
(lines 489-501), which depend on the fitted regressors' predictions.
Fold r2 values are modelled as rationals; a NaN-valued r2 (degenerate
validation slice) is outside the model. -/
structure TrainOracle where
  foldRes : ℕ → FoldRes
  finalFitOk : Bool
  mae : ℚ
  rmse : ℚ
  r2 : ℚ

/-- Scores appended to `scores['rf']` by one fold. -/
def foldRf : FoldRes → List ℚ
  | .ok r _ => [r]
  | .rfFail => [1/2]
  | .gbFail s => [s, 1/2]

/-- Scores appended to `scores['gb']` by one fold. -/
def foldGb : FoldRes → List ℚ
  | .ok _ g => [g]
  | .rfFail => [1/2]
  | .gbFail _ => [1/2]

/-- The full `scores['rf']` list after the 3 folds. -/
def rfScores (ork : TrainOracle) : List ℚ :=
  (List.range 3).flatMap fun i => foldRf (ork.foldRes i)

/-- The full `scores['gb']` list after the 3 folds. -/
def gbScores (ork : TrainOracle) : List ℚ :=
  (List.range 3).flatMap fun i => foldGb (ork.foldRes i)

/-- `np.mean(v) if v else 0.5` (line 478). -/
def avgScore (l : List ℚ) : ℚ := if l = [] then 1/2 else meanQ l

/-- The ensemble-weight update (lines 481-486): normalize the average
scores when their sum is positive, otherwise fall back to
rf 0.5 / gb 0.5 / lstm 0. -/
def computeWeights (avgRf avgGb avgLstm : ℚ) : EnsembleWeights :=
  if 0 < avgRf + avgGb + avgLstm then
    ⟨avgRf / (avgRf + avgGb + avgLstm), avgGb / (avgRf + avgGb + avgLstm),
     avgLstm / (avgRf + avgGb + avgLstm)⟩
  else ⟨1/2, 1/2, 0⟩

/-- The training summary returned on success (lines 518-526).  The
`top_features` entry (sklearn `feature_importances_`) is not modelled. -/
structure TrainSummary where
  mae : ℚ
  rmse : ℚ
  r2_score : ℚ
  training_samples : ℕ
  ensemble_weights : EnsembleWeights
  model_scores : EnsembleWeights

/-- The training targets (lines 391-392): `validate_input_data` is
called a second time — WITHOUT the timestamp sort `prepare_features`
performs — and the targets are `df['pm25'].shift(-1).dropna()`, i.e. the
pm25 column in input order with the first entry dropped. -/
def train_targets (data : List RawObs) : List ℚ :=
  match validate_input_data data with
  | none => []
  | some v => (v.map (·.pm25)).drop 1

/-- `features_df.iloc[:-1]` (line 393): drop the last row of every
column. -/
def dropLastCols (cols : List (String × List ℚ)) : List (String × List ℚ) :=
  cols.map fun p => (p.1, p.2.dropLast)

/-- `AirQualityPredictor.train_model` (lines 380-530).  Embedded control
flow: feature preparation, target extraction, scaler (re)fit, the
TimeSeriesSplit fold loop (scores from the oracle), the full-data refit,
the ensemble-weight update and the returned summary.  State effects
follow the source: the scalers are replaced before anything can fail,
the models are replaced once construction (lines 427-446) is reached,
and an exception after that point (`TimeSeriesSplit` needing at least 4
samples, or a failing final fit) yields a failure result with the
already-mutated state.  Intermediate per-fold fitted model states are
not tracked (no claim depends on them); the final-evaluation metrics and
`top_features` are oracle passthrough.  The part after feature
preparation is split out as `train_model_core`. -/
def train_model_core (ork : TrainOracle) (st : PredictorState) (data : List RawObs)
    (feats : List (String × List ℚ)) (use_ensemble : Bool) :
    Option TrainSummary × PredictorState :=
  let targets := train_targets data
  let featuresTrimmed := dropLastCols feats
  let nrows := targets.length
  if nrows = 0 then
    (none, { st with feature_scaler := .unfittedS, target_scaler := .unfittedS })
  else
    let st1 : PredictorState :=
      { st with feature_scaler := .fittedS featuresTrimmed, target_scaler := .fittedT targets,
                rf := .fresh, gb := .fresh }
    if nrows < 4 then (none, st1)
    else if ork.finalFitOk = false then (none, st1)
    else
      let avgRf := avgScore (rfScores ork)
      let avgGb := avgScore (gbScores ork)
      let avgLstm := avgScore []
      let st2 : PredictorState :=
        { st1 with rf := .trained featuresTrimmed targets, gb := .trained featuresTrimmed targets }
      let w := if use_ensemble then computeWeights avgRf avgGb avgLstm
               else st2.ensemble_weights
      let st3 := { st2 with ensemble_weights := w }
      (some { mae := ork.mae, rmse := ork.rmse, r2_score := ork.r2,
              training_samples := targets.length, ensemble_weights := w,
              model_scores := ⟨avgRf, avgGb, avgLstm⟩ }, st3)

def train_model (ops : FloatOps) (ork : TrainOracle) (st : PredictorState)
    (data : List RawObs) (use_ensemble : Bool) : Option TrainSummary × PredictorState :=
  match prepare_features ops data with
  | none => (none, st)
  | some feats => train_model_core ork st data feats use_ensemble

/-- `AirQualityPredictor.predict` (lines 571-677): the not-trained guard
(`if not self.models or self.feature_scaler is None`), feature
preparation, and the hour loop (`predictLoop`).  The fallback pm25 is
the raw `data[-1]['pm25']` value. -/
def predictor_predict (ops : FloatOps) (stepOutcome : ℕ → Option ℚ)
    (factorsAt : ℕ → List ContribFactor) (st : PredictorState) (data : List RawObs)
    (hoursAhead : ℤ) : Option (List ForecastPoint) :=
  if (st.rf = .absent ∧ st.gb = .absent) ∨ st.feature_scaler = .noneS then none
  else
    match prepare_features ops data with
    | none => none
    | some _ =>
      match data.getLast? with
      | none => none
      | some last =>
        some (predictLoop stepOutcome factorsAt last.timestamp (toQ last.pm25)
          st.model_version hoursAhead)

/-- Body of a `/predict` request: `hasData` models the `'data' in data`
check; the JSON-shape checks on the first record always pass for
`RawObs` (all fields present). -/
structure PredictRequest where
  hasData : Bool
  data : List RawObs
  hours_ahead : ℤ
  use_ensemble : Bool

/-- HTTP-level result of a route: status code, the `success` flag of the
JSON body, and the predictions list (empty on failure). -/
structure RouteResponse where
  status : ℕ
  success : Bool
  predictions : List ForecastPoint
  deriving DecidableEq

/-- The `/predict` route (lines 789-893): missing body or missing data
key give 400; fewer than `min_data_points` observations give 400 before
any training; then train (500 on failure), forecast (500 on failure or
on an empty prediction list), else 200.  The statistics block does not
affect state or the claims and is not modelled. -/
def predict_route (ops : FloatOps) (ork : TrainOracle) (stepOutcome : ℕ → Option ℚ)
    (factorsAt : ℕ → List ContribFactor) (st : PredictorState) (req : Option PredictRequest) :
    RouteResponse × PredictorState :=
  match req with
  | none => ({ status := 400, success := false, predictions := [] }, st)
  | some r =>
    if r.hasData = false then ({ status := 400, success := false, predictions := [] }, st)
    else
      let hours := min r.hours_ahead 24
      if r.data.length < st.min_data_points then
        ({ status := 400, success := false, predictions := [] }, st)
      else
        match train_model ops ork st r.data r.use_ensemble with
        | (none, st1) => ({ status := 500, success := false, predictions := [] }, st1)
        | (some _, st1) =>
          match predictor_predict ops stepOutcome factorsAt st1 r.data hours with
          | none => ({ status := 500, success := false, predictions := [] }, st1)
          | some ps =>
            if ps = [] then ({ status := 500, success := false, predictions := [] }, st1)
            else ({ status := 200, success := true, predictions := ps }, st1)

/-- Body of a `/model/retrain` request. -/
structure RetrainRequest where
  hasData : Bool
  data : List RawObs
  use_ensemble : Bool

/-- HTTP-level result of the retrain route. -/
structure RetrainResponse where
  status : ℕ
  success : Bool
  deriving DecidableEq

/-- The `/model/retrain` route (lines 940-968): it validates only the
presence of the data key and invokes `train_model` directly — there is
no minimum-length check. -/
def retrain_model (ops : FloatOps) (ork : TrainOracle) (st : PredictorState)
    (req : Option RetrainRequest) : RetrainResponse × PredictorState :=
  match req with
  | none => ({ status := 400, success := false }, st)
  | some r =>
    if r.hasData = false then ({ status := 400, success := false }, st)
    else
      let p := train_model ops ork st r.data r.use_ensemble
      ({ status := 200, success := p.1.isSome }, p.2)

/-- Modelled from the spec: the target list the spec's TrainingSet
clause prescribes — "paired (FeatureVector[i], target=pm25[i+1])" over
the TIMESTAMP-SORTED observations ("out-of-order input must be sorted
before use").  Used only to compare against the source's
`train_targets`. -/
def spec_sorted_targets (data : List RawObs) : List ℚ :=
  match validate_input_data data with
  | none => []
  | some v => ((sortVObs v).map (·.pm25)).drop 1

/-- Trivial transcendental oracle for concrete evaluations. -/
def ops0 : FloatOps := ⟨fun _ => 0, fun _ => 0, fun _ => 0⟩

/-- Benign training oracle: every fold scores 0.5 for both variants and
the final fit succeeds. -/
def ork1 : TrainOracle :=
  { foldRes := fun _ => .ok (1/2) (1/2), finalFitOk := true, mae := 1, rmse := 1, r2 := 1/2 }

/-- Training oracle with a negative average rf validation r2 (such
scores are ordinary sklearn `r2_score` outputs for a poor fit). -/
def orkNeg : TrainOracle :=
  { foldRes := fun _ => .ok (-1) (8/5), finalFitOk := true, mae := 1, rmse := 1, r2 := 1/2 }

/-- A plain observation: benign constant values except timestamp and
pm25. -/
def mkObs (t : ℤ) (p : ℚ) : RawObs :=
  { timestamp := t, pm25 := .num p, pm10 := .num 10, co2 := .num 400,
    temperature := .num 25, humidity := .num 50, hour := .num 1,
    dayOfWeek := .num 0, month := .num 1, aqi := .num 50 }

/-- 48 hourly observations with constant pm25. -/
def data48 : List RawObs := (List.range 48).map fun i => mkObs i 20

/-- 9 hourly observations (below the 48 minimum) with constant pm25. -/
def data9 : List RawObs := (List.range 9).map fun i => mkObs i 20

/-- Out-of-order input: the first two records are swapped in time
(timestamps 2,1,3,4,5 with pm25 20,10,30,40,50). -/
def c8data : List RawObs :=
  [mkObs 2 20, mkObs 1 10, mkObs 3 30, mkObs 4 40, mkObs 5 50]

/-- A predictor state whose models dict is non-empty and whose feature
scaler is set (the state after any construction of the regressors), so
that the not-trained guard of `predict` passes. -/
def stTrained : PredictorState :=
  { initPredictor with rf := .fresh, gb := .fresh, feature_scaler := .unfittedS,
                       target_scaler := .unfittedS }

theorem maxQ_eq (a b : ℚ) : maxQ a b = max a b := by
  unfold maxQ
  rcases le_or_lt a b with h | h
  · rw [if_pos h, max_eq_right h]
  · rw [if_neg (not_le.mpr h), max_eq_left h.le]

theorem minQ_eq (a b : ℚ) : minQ a b = min a b := by
  unfold minQ
  rcases le_or_lt a b with h | h
  · rw [if_pos h, min_eq_left h]
  · rw [if_neg (not_le.mpr h), min_eq_right h.le]

theorem absQ_eq (a : ℚ) : absQ a = |a| := by
  unfold absQ
  rcases lt_or_le a 0 with h | h
  · rw [if_pos h, abs_of_neg h]
  · rw [if_neg (not_lt.mpr h), abs_of_nonneg h]

theorem floorQ_eq (q : ℚ) : floorQ q = ⌊q⌋ := Rat.floor_def.symm

theorem predictLoop_length (o : ℕ → Option ℚ) (f : ℕ → List ContribFactor)
    (b : ℤ) (l : ℚ) (v : String) (hoursAhead : ℤ) :
    (predictLoop o f b l v hoursAhead).length = (min hoursAhead 24).toNat := by
  simp [predictLoop]

theorem predictLoop_getD (o : ℕ → Option ℚ) (f : ℕ → List ContribFactor)
    (b : ℤ) (l : ℚ) (v : String) (hoursAhead : ℤ) (i : ℕ)
    (hi : i < (min hoursAhead 24).toNat) :
    (predictLoop o f b l v hoursAhead).getD i default = stepPoint o f b l v (1 + i) := by
  unfold predictLoop
  rw [List.getD_eq_getElem?_getD, List.getElem?_map, List.getElem?_range' 1 1 hi]
  simp

theorem stepPoint_hour_ahead (o : ℕ → Option ℚ) (f : ℕ → List ContribFactor)
    (b : ℤ) (l : ℚ) (v : String) (h : ℕ) : (stepPoint o f b l v h).hour_ahead = h := by
  unfold stepPoint; cases o h <;> rfl

theorem stepPoint_timestamp (o : ℕ → Option ℚ) (f : ℕ → List ContribFactor)
    (b : ℤ) (l : ℚ) (v : String) (h : ℕ) :
    (stepPoint o f b l v h).timestamp = b + 3600 * h := by
  unfold stepPoint; cases o h <;> rfl

theorem roundTo_twentieth (m : ℤ) : roundTo 3 ((m : ℚ) / 20) = (m : ℚ) / 20 := by
  have h : ((m : ℚ) / 20) * 10 ^ 3 = ((50 * m : ℤ) : ℚ) := by push_cast; ring
  unfold roundTo roundHalfEven
  rw [h, floorQ_eq, Int.floor_intCast]
  rw [if_pos (by norm_num)]
  push_cast
  ring

theorem stepConfidence_closed (h : ℕ) (hh : 1 ≤ h) :
    stepConfidence h = if h ≤ 9 then 7/10 - ((h : ℚ) - 1) * (5/100) else 3/10 := by
  unfold stepConfidence
  rw [maxQ_eq, minQ_eq]
  have h1 : (1 : ℚ) ≤ (h : ℚ) := by exact_mod_cast hh
  by_cases h9 : h ≤ 9
  · have h9q : (h : ℚ) ≤ 9 := by exact_mod_cast h9
    rw [if_pos h9, min_eq_right (by linarith), max_eq_right (by linarith)]
  · push_neg at h9
    have h9q : (10 : ℚ) ≤ (h : ℚ) := by exact_mod_cast h9
    rw [if_neg (by omega), min_eq_right (by linarith), max_eq_left (by linarith)]

theorem roundTo_stepConfidence (h : ℕ) (hh : 1 ≤ h) :
    roundTo 3 (stepConfidence h) = stepConfidence h := by
  rw [stepConfidence_closed h hh]
  by_cases h9 : h ≤ 9
  · rw [if_pos h9]
    have e : (7 : ℚ)/10 - ((h : ℚ) - 1) * (5/100) = (((15 - h : ℤ)) : ℚ) / 20 := by
      push_cast; ring
    rw [e, roundTo_twentieth]
  · rw [if_neg h9]
    have e : (3 : ℚ)/10 = ((6 : ℤ) : ℚ) / 20 := by norm_num
    rw [e, roundTo_twentieth]

/-- C3: for a forecast requested with hoursAhead = 6 (any trained state,
any model oracle), `predict` returns exactly 6 ForecastPoints whose
hour_ahead fields are 1,2,...,6 and whose timestamps are spaced exactly
one hour (3600 s) apart starting one hour after the timestamp of the
last input observation. -/
theorem c3_forecast_shape (ops : FloatOps) (o : ℕ → Option ℚ) (f : ℕ → List ContribFactor)
    (st : PredictorState) (data : List RawObs) (ps : List ForecastPoint)
    (h : predictor_predict ops o f st data 6 = some ps) :
    ps.length = 6 ∧
    ∀ i : ℕ, i < 6 →
      (ps.getD i default).hour_ahead = i + 1 ∧
      (ps.getD i default).timestamp = (data.getLastD default).timestamp + 3600 * ((i : ℤ) + 1) := by
  unfold predictor_predict at h
  by_cases hg : (st.rf = .absent ∧ st.gb = .absent) ∨ st.feature_scaler = .noneS
  · rw [if_pos hg] at h; cases h
  · rw [if_neg hg] at h
    cases hpf : prepare_features ops data with
    | none => rw [hpf] at h; cases h
    | some feats =>
      rw [hpf] at h
      cases hlast : data.getLast? with
      | none => rw [hlast] at h; cases h
      | some last =>
        rw [hlast] at h
        have hps : ps = predictLoop o f last.timestamp (toQ last.pm25) st.model_version 6 :=
          (Option.some.inj h).symm
        subst hps
        have hbase : (data.getLastD default).timestamp = last.timestamp := by
          rw [List.getLastD_eq_getLast?, hlast]
          rfl
        constructor
        · rw [predictLoop_length]; rfl
        · intro i hi
          have hi6 : i < (min (6 : ℤ) 24).toNat := by omega
          rw [predictLoop_getD _ _ _ _ _ _ i hi6]
          refine ⟨?_, ?_⟩
          · rw [stepPoint_hour_ahead]; omega
          · rw [stepPoint_timestamp, hbase]; push_cast; ring

/-- Witness for C3: concrete evaluation on 48 hourly observations with a
trained predictor state and a trivial model oracle. -/
theorem c3_forecast_shape_witness :
    ((predictor_predict ops0 (fun _ => some 0) (fun _ => []) stTrained data48 6).getD []).length = 6 ∧
    (((predictor_predict ops0 (fun _ => some 0) (fun _ => []) stTrained data48 6).getD []).getD 0
      default).hour_ahead = 1 ∧
    (((predictor_predict ops0 (fun _ => some 0) (fun _ => []) stTrained data48 6).getD []).getD 0
      default).timestamp = 3647 := by
  have h := c3_forecast_shape ops0 (fun _ => some 0) (fun _ => []) stTrained data48
    ((predictor_predict ops0 (fun _ => some 0) (fun _ => []) stTrained data48 6).getD []) rfl
  exact ⟨h.1, (h.2 0 (by norm_num)).1, ((h.2 0 (by norm_num)).2).trans (by decide)⟩

/-- C4: a forecast step on which the per-step computation raises (the
oracle reports `none`) emits a fallback ForecastPoint carrying the last
known real pm25 value (rounded to 2 decimals for output), its AQI,
confidence fixed at 0.3, an empty contributing-factors list and the
model version with the "-fallback" suffix, at that step's position; and
the sequence keeps the full requested length no matter how many steps
fail. -/
theorem c4_step_fallback (o : ℕ → Option ℚ) (f : ℕ → List ContribFactor) (b : ℤ) (l : ℚ)
    (v : String) (hoursAhead : ℤ) (hA1 : 1 ≤ hoursAhead) (hA2 : hoursAhead ≤ 24)
    (k : ℕ) (hk1 : 1 ≤ k) (hk2 : (k : ℤ) ≤ hoursAhead) (hfail : o k = none) :
    ((predictLoop o f b l v hoursAhead).getD (k - 1) default).predicted_pm25 = roundTo 2 l ∧
    ((predictLoop o f b l v hoursAhead).getD (k - 1) default).predicted_aqi =
      roundTo 1 (calculate_aqi l) ∧
    ((predictLoop o f b l v hoursAhead).getD (k - 1) default).confidence = 3/10 ∧
    ((predictLoop o f b l v hoursAhead).getD (k - 1) default).contributing_factors = [] ∧
    ((predictLoop o f b l v hoursAhead).getD (k - 1) default).modelVersion = v ++ "-fallback" ∧
    ((predictLoop o f b l v hoursAhead).getD (k - 1) default).hour_ahead = k ∧
    (predictLoop o f b l v hoursAhead).length = hoursAhead.toNat := by
  have hik : k - 1 < (min hoursAhead 24).toNat := by omega
  rw [predictLoop_getD o f b l v hoursAhead (k - 1) hik]
  have h1k : 1 + (k - 1) = k := by omega
  rw [h1k]
  unfold stepPoint
  rw [hfail]
  refine ⟨rfl, rfl, rfl, rfl, rfl, rfl, ?_⟩
  rw [predictLoop_length]
  omega

/-- Witness for C4: with every step failing, step 2 of a 6-hour forecast
is the fallback point and the forecast still has 6 entries. -/
theorem c4_step_fallback_witness :
    ((predictLoop (fun _ => none) (fun _ => []) 0 10 "2.2" 6).getD 1 default).confidence = 3/10 ∧
    ((predictLoop (fun _ => none) (fun _ => []) 0 10 "2.2" 6).getD 1 default).modelVersion =
      "2.2-fallback" ∧
    (predictLoop (fun _ => none) (fun _ => []) 0 10 "2.2" 6).length = 6 := by
  have h := c4_step_fallback (fun _ => none) (fun _ => []) 0 10 "2.2" 6 (by norm_num)
    (by norm_num) 2 (by norm_num) (by norm_num) rfl
  exact ⟨h.2.2.1, h.2.2.2.2.1, (h.2.2.2.2.2.2).trans (by decide)⟩

/-- C7 counterexample: the emitted confidence does NOT strictly decrease
over the horizon — with the model oracle succeeding at every step, hours
9 and 10 of a 10-hour forecast both carry confidence 0.3 (the formula's
floor). -/
theorem c7_confidence_plateau_counterexample :
    ((predictLoop (fun _ => some 0) (fun _ => []) 0 0 "2.2" 10).getD 8 default).hour_ahead = 9 ∧
    ((predictLoop (fun _ => some 0) (fun _ => []) 0 0 "2.2" 10).getD 9 default).hour_ahead = 10 ∧
    ((predictLoop (fun _ => some 0) (fun _ => []) 0 0 "2.2" 10).getD 8 default).confidence =
      ((predictLoop (fun _ => some 0) (fun _ => []) 0 0 "2.2" 10).getD 9 default).confidence := by
  have e8 := predictLoop_getD (fun _ => some 0) (fun _ => []) 0 0 "2.2" 10 8 (by omega)
  have e9 := predictLoop_getD (fun _ => some 0) (fun _ => []) 0 0 "2.2" 10 9 (by omega)
  rw [e8, e9]
  refine ⟨by rw [stepPoint_hour_ahead], by rw [stepPoint_hour_ahead], ?_⟩
  show roundTo 3 (stepConfidence (1 + 8)) = roundTo 3 (stepConfidence (1 + 9))
  rw [roundTo_stepConfidence (1 + 8) (by norm_num), roundTo_stepConfidence (1 + 9) (by norm_num),
    stepConfidence_closed (1 + 8) (by norm_num), stepConfidence_closed (1 + 9) (by norm_num)]
  norm_num

/-- C7 (amended): each successful forecast step's confidence equals
`max(0.3, min(0.9, 0.7 - 0.05*(hour-1)))` (always, this code has no
richer spread estimate); the value lies in [0.3, 0.7], hence in
[0.1, 0.95]; it is non-increasing in the hour and strictly decreasing
until it reaches the 0.3 floor at hour 9. -/
theorem c7_confidence_formula (o : ℕ → Option ℚ) (f : ℕ → List ContribFactor) (b : ℤ) (l : ℚ)
    (v : String) (hoursAhead : ℤ) (hA : hoursAhead ≤ 24) (k : ℕ) (hk1 : 1 ≤ k)
    (hk2 : (k : ℤ) ≤ hoursAhead) (x : ℚ) (ho : o k = some x) :
    ((predictLoop o f b l v hoursAhead).getD (k - 1) default).confidence =
      max (3/10) (min (9/10) (7/10 - ((k : ℚ) - 1) * (5/100))) ∧
    3/10 ≤ stepConfidence k ∧ stepConfidence k ≤ 7/10 ∧
    1/10 ≤ stepConfidence k ∧ stepConfidence k ≤ 19/20 ∧
    stepConfidence (k + 1) ≤ stepConfidence k ∧
    (k ≤ 8 → stepConfidence (k + 1) < stepConfidence k) := by
  have hik : k - 1 < (min hoursAhead 24).toNat := by omega
  have h1k : 1 + (k - 1) = k := by omega
  have hc := stepConfidence_closed k hk1
  have hc1 := stepConfidence_closed (k + 1) (by omega)
  have hkq : (1 : ℚ) ≤ (k : ℚ) := by exact_mod_cast hk1
  constructor
  · rw [predictLoop_getD o f b l v hoursAhead (k - 1) hik, h1k]
    unfold stepPoint
    rw [ho]
    show roundTo 3 (stepConfidence k) = _
    rw [roundTo_stepConfidence k hk1]
    unfold stepConfidence
    rw [maxQ_eq, minQ_eq]
  refine ⟨?_, ?_, ?_, ?_, ?_, ?_⟩
  · rw [hc]; by_cases h9 : k ≤ 9
    · rw [if_pos h9]
      have : (k : ℚ) ≤ 9 := by exact_mod_cast h9
      linarith
    · rw [if_neg h9]
  · rw [hc]; by_cases h9 : k ≤ 9
    · rw [if_pos h9]; linarith
    · rw [if_neg h9]; norm_num
  · rw [hc]; by_cases h9 : k ≤ 9
    · rw [if_pos h9]
      have : (k : ℚ) ≤ 9 := by exact_mod_cast h9
      linarith
    · rw [if_neg h9]; norm_num
  · rw [hc]; by_cases h9 : k ≤ 9
    · rw [if_pos h9]; linarith
    · rw [if_neg h9]; norm_num
  · rw [hc, hc1]
    by_cases h8 : k ≤ 8
    · rw [if_pos (by omega : k + 1 ≤ 9), if_pos (by omega : k ≤ 9)]
      push_cast; linarith
    · by_cases h9 : k ≤ 9
      · have hk9 : k = 9 := by omega
        subst hk9
        rw [if_neg (by omega), if_pos (by omega)]
        norm_num
      · rw [if_neg (by omega), if_neg h9]
  · intro h8
    rw [hc, hc1, if_pos (by omega : k + 1 ≤ 9), if_pos (by omega : k ≤ 9)]
    push_cast; linarith

/-- Witness for C7 (amended): hour 1 of a 6-hour forecast carries
confidence 0.7 and hour 2's formula value is strictly smaller. -/
theorem c7_confidence_formula_witness :
    ((predictLoop (fun _ => some 0) (fun _ => []) 0 0 "2.2" 6).getD 0 default).confidence =
      max (3/10) (min (9/10) (7/10 - ((1 : ℚ) - 1) * (5/100))) ∧
    stepConfidence 2 < stepConfidence 1 := by
  have h := c7_confidence_formula (fun _ => some 0) (fun _ => []) 0 0 "2.2" 6 (by norm_num)
    1 (by norm_num) (by norm_num) 0 rfl
  exact ⟨h.1, h.2.2.2.2.2.2 (by norm_num)⟩

/-- C9 counterexample: a `/predict` request with hoursAhead = 0 on valid
48-observation input produces ZERO forecast points (and a 500 response),
not "at least 1" — the route clamps the horizon only from above. -/
theorem c9_no_lower_clamp_counterexample :
    (predict_route ops0 ork1 (fun _ => some 0) (fun _ => []) initPredictor
      (some { hasData := true, data := data48, hours_ahead := 0,
              use_ensemble := true })).1.predictions.length = 0 ∧
    (predict_route ops0 ork1 (fun _ => some 0) (fun _ => []) initPredictor
      (some { hasData := true, data := data48, hours_ahead := 0,
              use_ensemble := true })).1.status = 500 := by
  constructor
  · decide
  · decide

/-- C9 (amended): the forecast horizon is clamped from above at 24: the
loop emits `min hoursAhead 24` points (at most 24), and at least one
point whenever the supplied horizon is at least 1; a horizon below 1
yields an empty forecast. -/
theorem c9_horizon_clamp (o : ℕ → Option ℚ) (f : ℕ → List ContribFactor) (b : ℤ) (l : ℚ)
    (v : String) (hoursAhead : ℤ) :
    (predictLoop o f b l v hoursAhead).length = (min hoursAhead 24).toNat ∧
    (predictLoop o f b l v hoursAhead).length ≤ 24 ∧
    (1 ≤ hoursAhead → 1 ≤ (predictLoop o f b l v hoursAhead).length) := by
  refine ⟨predictLoop_length o f b l v hoursAhead, ?_, ?_⟩
  · rw [predictLoop_length]; omega
  · intro h1; rw [predictLoop_length]; omega

/-- Witness for C9 (amended): a request for 30 hours yields exactly 24
points. -/
theorem c9_horizon_clamp_witness :
    (predictLoop (fun _ => some 0) (fun _ => []) 0 0 "2.2" 30).length = (min (30 : ℤ) 24).toNat ∧
    1 ≤ (predictLoop (fun _ => some 0) (fun _ => []) 0 0 "2.2" 30).length := by
  have h := c9_horizon_clamp (fun _ => some 0) (fun _ => []) 0 0 "2.2" 30
  exact ⟨h.1, h.2.2 (by norm_num)⟩

theorem validate_isSome (data : List RawObs) (hd : data ≠ []) :
    ∃ v, validate_input_data data = some v := by
  unfold validate_input_data
  rw [if_neg hd]
  exact ⟨_, rfl⟩

theorem validate_length (data : List RawObs) (v : List VObs)
    (h : validate_input_data data = some v) : v.length = data.length := by
  unfold validate_input_data at h
  by_cases hd : data = []
  · rw [if_pos hd] at h; cases h
  · rw [if_neg hd] at h
    have hv := (Option.some.inj h).symm
    subst hv
    simp

theorem prepare_isSome (ops : FloatOps) (data : List RawObs) (hd : data ≠ []) :
    ∃ feats, prepare_features ops data = some feats := by
  obtain ⟨v, hv⟩ := validate_isSome data hd
  unfold prepare_features
  rw [hv]
  exact ⟨_, rfl⟩

theorem train_targets_length (data : List RawObs) (hd : data ≠ []) :
    (train_targets data).length = data.length - 1 := by
  obtain ⟨v, hv⟩ := validate_isSome data hd
  unfold train_targets
  rw [hv]
  simp [validate_length data v hv]

theorem train_model_eq_core (ops : FloatOps) (ork : TrainOracle) (st : PredictorState)
    (data : List RawObs) (ue : Bool) (feats : List (String × List ℚ))
    (hpf : prepare_features ops data = some feats) :
    train_model ops ork st data ue = train_model_core ork st data feats ue := by
  unfold train_model
  rw [hpf]

theorem computeWeights_sum (a b c : ℚ) :
    (computeWeights a b c).rf + (computeWeights a b c).gb + (computeWeights a b c).lstm = 1 := by
  unfold computeWeights
  by_cases h : 0 < a + b + c
  · rw [if_pos h]
    field_simp
  · rw [if_neg h]
    norm_num

theorem computeWeights_nonneg (a b c : ℚ) (ha : 0 ≤ a) (hb : 0 ≤ b) (hc : 0 ≤ c) :
    0 ≤ (computeWeights a b c).rf ∧ 0 ≤ (computeWeights a b c).gb ∧
      0 ≤ (computeWeights a b c).lstm := by
  unfold computeWeights
  by_cases h : 0 < a + b + c
  · rw [if_pos h]
    exact ⟨div_nonneg ha h.le, div_nonneg hb h.le, div_nonneg hc h.le⟩
  · rw [if_neg h]
    norm_num

theorem avgScore_nonneg (l : List ℚ) (h : ∀ q ∈ l, 0 ≤ q) : 0 ≤ avgScore l := by
  unfold avgScore meanQ
  by_cases he : l = []
  · rw [if_pos he]
    norm_num
  · rw [if_neg he, if_neg he]
    apply div_nonneg (List.sum_nonneg h)
    positivity

theorem train_model_core_success (ork : TrainOracle) (st : PredictorState) (data : List RawObs)
    (feats : List (String × List ℚ)) (ue : Bool) (h4 : 4 ≤ (train_targets data).length)
    (hfit : ork.finalFitOk = true) :
    train_model_core ork st data feats ue =
      (some { mae := ork.mae, rmse := ork.rmse, r2_score := ork.r2,
              training_samples := (train_targets data).length,
              ensemble_weights :=
                if ue then
                  computeWeights (avgScore (rfScores ork)) (avgScore (gbScores ork)) (avgScore [])
                else st.ensemble_weights,
              model_scores := ⟨avgScore (rfScores ork), avgScore (gbScores ork), avgScore []⟩ },
       { st with
          feature_scaler := .fittedS (dropLastCols feats),
          target_scaler := .fittedT (train_targets data),
          rf := .trained (dropLastCols feats) (train_targets data),
          gb := .trained (dropLastCols feats) (train_targets data),
          ensemble_weights :=
            if ue then
              computeWeights (avgScore (rfScores ork)) (avgScore (gbScores ork)) (avgScore [])
            else st.ensemble_weights }) := by
  simp only [train_model_core]
  rw [if_neg (by omega), if_neg (by omega), if_neg (by rw [hfit]; simp)]

/-- C5: a `/predict` request carrying fewer than 48 observations is
rejected with HTTP 400 and success = false before any training runs, so
the predictor state (models, scalers, ensemble weights) is unchanged. -/
theorem c5_min_data_rejected (ops : FloatOps) (ork : TrainOracle) (o : ℕ → Option ℚ)
    (f : ℕ → List ContribFactor) (st : PredictorState) (r : PredictRequest)
    (hmin : st.min_data_points = 48) (hd : r.hasData = true) (hlen : r.data.length < 48) :
    predict_route ops ork o f st (some r) =
      ({ status := 400, success := false, predictions := [] }, st) := by
  simp only [predict_route]
  rw [hd, hmin]
  rw [if_neg (by simp)]
  rw [if_pos hlen]

/-- Witness for C5: a request with 9 observations against the initial
predictor. -/
theorem c5_min_data_rejected_witness :
    predict_route ops0 ork1 (fun _ => some 0) (fun _ => [])
      initPredictor (some { hasData := true, data := data9, hours_ahead := 6,
                            use_ensemble := true }) =
      ({ status := 400, success := false, predictions := [] }, initPredictor) :=
  c5_min_data_rejected ops0 ork1 (fun _ => some 0) (fun _ => []) initPredictor
    { hasData := true, data := data9, hours_ahead := 6, use_ensemble := true }
    rfl rfl (by decide)

/-- C10: the `/model/retrain` route enforces no 48-observation minimum:
a retrain request with any data list (here, fewer than 48 records but
enough for the 3-fold split) runs training to completion and replaces
the predictor's scalers, models and (when use_ensemble) ensemble
weights with values computed from the supplied data. -/
theorem c10_retrain_no_minimum (ops : FloatOps) (ork : TrainOracle) (st : PredictorState)
    (data : List RawObs) (ue : Bool) (h5 : 5 ≤ data.length) (h48 : data.length < 48)
    (hfit : ork.finalFitOk = true) :
    ∃ feats, prepare_features ops data = some feats ∧
      (retrain_model ops ork st (some ⟨true, data, ue⟩)).1.success = true ∧
      (retrain_model ops ork st (some ⟨true, data, ue⟩)).2 =
        { st with
            feature_scaler := .fittedS (dropLastCols feats),
            target_scaler := .fittedT (train_targets data),
            rf := .trained (dropLastCols feats) (train_targets data),
            gb := .trained (dropLastCols feats) (train_targets data),
            ensemble_weights :=
              if ue then
                computeWeights (avgScore (rfScores ork)) (avgScore (gbScores ork)) (avgScore [])
              else st.ensemble_weights } := by
  have hd : data ≠ [] := by
    intro h
    rw [h] at h5
    simp at h5
  obtain ⟨feats, hpf⟩ := prepare_isSome ops data hd
  have h4 : 4 ≤ (train_targets data).length := by
    rw [train_targets_length data hd]
    omega
  refine ⟨feats, hpf, ?_, ?_⟩
  · simp only [retrain_model]
    rw [if_neg (by simp)]
    rw [train_model_eq_core ops ork st data ue feats hpf,
        train_model_core_success ork st data feats ue h4 hfit]
    rfl
  · simp only [retrain_model]
    rw [if_neg (by simp)]
    rw [train_model_eq_core ops ork st data ue feats hpf,
        train_model_core_success ork st data feats ue h4 hfit]

/-- Witness for C10: retraining on 9 observations succeeds and installs
the weights recomputed from the oracle's fold scores. -/
theorem c10_retrain_no_minimum_witness :
    (retrain_model ops0 ork1 initPredictor (some ⟨true, data9, true⟩)).1.success = true ∧
    (retrain_model ops0 ork1 initPredictor (some ⟨true, data9, true⟩)).2.ensemble_weights =
      ⟨1/3, 1/3, 1/3⟩ := by
  obtain ⟨feats, hpf, hsucc, hst⟩ :=
    c10_retrain_no_minimum ops0 ork1 initPredictor data9 true (by decide) (by decide) rfl
  refine ⟨hsucc, ?_⟩
  rw [hst]
  show (if true = true then
      computeWeights (avgScore (rfScores ork1)) (avgScore (gbScores ork1)) (avgScore [])
    else initPredictor.ensemble_weights) = ⟨1/3, 1/3, 1/3⟩
  rw [if_pos rfl]
  with_unfolding_all decide

/-- C2 counterexample: a successful training call whose rf variant
scored a negative average validation r2 (an ordinary sklearn outcome
for a poor fit) installs a NEGATIVE rf ensemble weight: the weights sum
to 1 but are not non-negative. -/
theorem c2_negative_weight_counterexample :
    (train_model ops0 orkNeg initPredictor data9 true).1.isSome = true ∧
    (train_model ops0 orkNeg initPredictor data9 true).2.ensemble_weights.rf = -10/11 ∧
    (train_model ops0 orkNeg initPredictor data9 true).2.ensemble_weights.rf < 0 := by
  refine ⟨by with_unfolding_all decide, by with_unfolding_all decide, by with_unfolding_all decide⟩

/-- C2 (amended): after every successful training call with
use_ensemble, the installed ensemble weights sum to exactly 1; they are
furthermore non-negative whenever every per-fold validation score of
both variants is non-negative (the code never clamps negative r2
scores, see the counterexample). -/
theorem c2_ensemble_weights (ops : FloatOps) (ork : TrainOracle) (st : PredictorState)
    (data : List RawObs)
    (hsucc : (train_model ops ork st data true).1.isSome = true) :
    (train_model ops ork st data true).2.ensemble_weights.rf +
      (train_model ops ork st data true).2.ensemble_weights.gb +
      (train_model ops ork st data true).2.ensemble_weights.lstm = 1 ∧
    ((∀ q ∈ rfScores ork, 0 ≤ q) → (∀ q ∈ gbScores ork, 0 ≤ q) →
      0 ≤ (train_model ops ork st data true).2.ensemble_weights.rf ∧
      0 ≤ (train_model ops ork st data true).2.ensemble_weights.gb ∧
      0 ≤ (train_model ops ork st data true).2.ensemble_weights.lstm) := by
  cases hpf : prepare_features ops data with
  | none =>
    exfalso
    unfold train_model at hsucc
    rw [hpf] at hsucc
    simp at hsucc
  | some feats =>
    rw [train_model_eq_core ops ork st data true feats hpf] at hsucc ⊢
    simp only [train_model_core] at hsucc ⊢
    by_cases h0 : (train_targets data).length = 0
    · rw [if_pos h0] at hsucc
      simp at hsucc
    · rw [if_neg h0] at hsucc ⊢
      by_cases h4 : (train_targets data).length < 4
      · rw [if_pos h4] at hsucc
        simp at hsucc
      · rw [if_neg h4] at hsucc ⊢
        by_cases hf : ork.finalFitOk = false
        · rw [if_pos hf] at hsucc
          simp at hsucc
        · rw [if_neg hf] at hsucc ⊢
          simp only [if_pos rfl]
          constructor
          · exact computeWeights_sum _ _ _
          · intro hr hg
            exact computeWeights_nonneg _ _ _ (avgScore_nonneg _ hr) (avgScore_nonneg _ hg)
              (avgScore_nonneg [] (by simp))

/-- Witness for C2 (amended): with all fold scores 0.5 the installed
weights are (1/3, 1/3, 1/3): they sum to 1 and are non-negative. -/
theorem c2_ensemble_weights_witness :
    (train_model ops0 ork1 initPredictor data9 true).2.ensemble_weights.rf +
      (train_model ops0 ork1 initPredictor data9 true).2.ensemble_weights.gb +
      (train_model ops0 ork1 initPredictor data9 true).2.ensemble_weights.lstm = 1 ∧
    0 ≤ (train_model ops0 ork1 initPredictor data9 true).2.ensemble_weights.rf := by
  have h := c2_ensemble_weights ops0 ork1 initPredictor data9 (by with_unfolding_all decide)
  refine ⟨h.1, ?_⟩
  have e : rfScores ork1 = [1/2, 1/2, 1/2] := by with_unfolding_all decide
  have eg : gbScores ork1 = [1/2, 1/2, 1/2] := by with_unfolding_all decide
  refine (h.2 ?_ ?_).1
  · intro q hq
    rw [e] at hq
    simp at hq
    rw [hq]
    norm_num
  · intro q hq
    rw [eg] at hq
    simp at hq
    rw [hq]
    norm_num

/-- C6: the sanitizer's output contains only finite values, for every
input frame, on both its normal path and its exception-fallback path
(`clean_infinite_values` is total in this model — the fallback path is
the one the source uses if the normal path raises, and both satisfy the
postcondition). -/
theorem c6_sanitizer_all_finite :
    ∀ (df : List (List PyVal)) (method : String),
      allFiniteDF (clean_infinite_values df method) = true ∧
      allFiniteDF (cleanFallback df) = true := by
  intro df method
  constructor
  · unfold clean_infinite_values allFiniteDF
    simp only [List.all_eq_true, List.mem_map]
    rintro col ⟨c0, _, rfl⟩
    unfold cleanFiniteCheckCol
    by_cases hall : c0.all PyVal.isFinite = true
    · rw [if_pos hall]
      simpa using hall
    · rw [if_neg hall]
      simp only [List.all_eq_true, List.mem_map]
      rintro v ⟨w, _, rfl⟩
      by_cases hw : w.isFinite = true
      · rw [if_pos hw]
        exact hw
      · rw [if_neg hw]
        rfl
  · unfold cleanFallback allFiniteDF
    simp only [List.all_eq_true, List.mem_map]
    rintro col ⟨c0, _, rfl⟩
    simp only [List.all_eq_true, List.mem_map]
    rintro v ⟨w, _, rfl⟩
    cases w <;> rfl

/-- C8 (code defect): out-of-order input is NOT sorted before the
feature/target pairing.  `prepare_features` sorts by timestamp before
building feature rows, but the targets are taken from the second,
UNSORTED `validate_input_data` result, so on the out-of-order input
`c8data` (timestamps 2,1,3,4,5) the produced target list disagrees with
the sorted pairing the spec prescribes (`spec_sorted_targets`). -/
theorem c8_targets_not_sorted :
    train_targets c8data = [52/5, 30, 40, 248/5] ∧
    spec_sorted_targets c8data = [20, 30, 40, 248/5] ∧
    train_targets c8data ≠ spec_sorted_targets c8data ∧
    ((validate_input_data c8data).getD []).map (·.pm25) = [20, 52/5, 30, 40, 248/5] ∧
    ((sortVObs ((validate_input_data c8data).getD [])).map (·.pm25)) =
      [52/5, 20, 30, 40, 248/5] := by
  refine ⟨by with_unfolding_all decide, by with_unfolding_all decide,
    by with_unfolding_all decide, by with_unfolding_all decide, by with_unfolding_all decide⟩

theorem clamp_id {v : ℚ} (h1 : 0 ≤ v) (h2 : v ≤ 500) : maxQ 0 (minQ v 500) = v := by
  rw [maxQ_eq, minQ_eq, min_eq_left h2, max_eq_right h1]

theorem aqiScan_bounds (l : List (ℚ × ℚ × ℚ × ℚ)) (p : ℚ) :
    0 ≤ aqiScan l p ∧ aqiScan l p ≤ 500 := by
  induction l with
  | nil =>
    simp only [aqiScan]
    norm_num
  | cons hd tl ih =>
    obtain ⟨lo, hi, alo, ahi⟩ := hd
    simp only [aqiScan]
    by_cases h : lo ≤ p ∧ p ≤ hi
    · rw [if_pos h, maxQ_eq, minQ_eq]
      exact ⟨le_max_left 0 _, max_le (by norm_num) (min_le_right _ _)⟩
    · rw [if_neg h]
      exact ih

theorem aqi_neg (p : ℚ) (h : p ≤ 0) : calculate_aqi p = 0 := by
  have hcl : maxQ 0 (minQ p 1000) = 0 := by
    rw [maxQ_eq, minQ_eq, min_eq_left (by linarith), max_eq_left h]
  unfold calculate_aqi aqi_breakpoints
  rw [hcl]
  simp only [aqiScan]
  rw [if_pos ⟨le_refl 0, by norm_num⟩]
  norm_num [maxQ, minQ]

theorem aqi_eval_b0 (p : ℚ) (h1 : 0 ≤ p) (h2 : p ≤ 12) :
    calculate_aqi p = (50 - 0) / (12 - 0) * (p - 0) + 0 := by
  have hcl : maxQ 0 (minQ p 1000) = p := by
    rw [maxQ_eq, minQ_eq, min_eq_left (by linarith), max_eq_right h1]
  unfold calculate_aqi aqi_breakpoints
  rw [hcl]
  simp only [aqiScan]
  rw [if_pos ⟨h1, h2⟩]
  exact clamp_id (by linarith) (by linarith)

theorem aqi_eval_b1 (p : ℚ) (h1 : 121/10 ≤ p) (h2 : p ≤ 177/5) :
    calculate_aqi p = (100 - 51) / (177/5 - 121/10) * (p - 121/10) + 51 := by
  have hcl : maxQ 0 (minQ p 1000) = p := by
    rw [maxQ_eq, minQ_eq, min_eq_left (by linarith), max_eq_right (by linarith)]
  unfold calculate_aqi aqi_breakpoints
  rw [hcl]
  simp only [aqiScan]
  rw [if_neg (by rintro ⟨-, h⟩; linarith), if_pos ⟨h1, h2⟩]
  exact clamp_id (by linarith) (by linarith)

theorem aqi_eval_b2 (p : ℚ) (h1 : 71/2 ≤ p) (h2 : p ≤ 277/5) :
    calculate_aqi p = (150 - 101) / (277/5 - 71/2) * (p - 71/2) + 101 := by
  have hcl : maxQ 0 (minQ p 1000) = p := by
    rw [maxQ_eq, minQ_eq, min_eq_left (by linarith), max_eq_right (by linarith)]
  unfold calculate_aqi aqi_breakpoints
  rw [hcl]
  simp only [aqiScan]
  rw [if_neg (by rintro ⟨-, h⟩; linarith), if_neg (by rintro ⟨-, h⟩; linarith), if_pos ⟨h1, h2⟩]
  exact clamp_id (by linarith) (by linarith)

theorem aqi_eval_b3 (p : ℚ) (h1 : 111/2 ≤ p) (h2 : p ≤ 752/5) :
    calculate_aqi p = (200 - 151) / (752/5 - 111/2) * (p - 111/2) + 151 := by
  have hcl : maxQ 0 (minQ p 1000) = p := by
    rw [maxQ_eq, minQ_eq, min_eq_left (by linarith), max_eq_right (by linarith)]
  unfold calculate_aqi aqi_breakpoints
  rw [hcl]
  simp only [aqiScan]
  rw [if_neg (by rintro ⟨-, h⟩; linarith), if_neg (by rintro ⟨-, h⟩; linarith),
      if_neg (by rintro ⟨-, h⟩; linarith), if_pos ⟨h1, h2⟩]
  exact clamp_id (by linarith) (by linarith)

theorem aqi_eval_b4 (p : ℚ) (h1 : 301/2 ≤ p) (h2 : p ≤ 1252/5) :
    calculate_aqi p = (300 - 201) / (1252/5 - 301/2) * (p - 301/2) + 201 := by
  have hcl : maxQ 0 (minQ p 1000) = p := by
    rw [maxQ_eq, minQ_eq, min_eq_left (by linarith), max_eq_right (by linarith)]
  unfold calculate_aqi aqi_breakpoints
  rw [hcl]
  simp only [aqiScan]
  rw [if_neg (by rintro ⟨-, h⟩; linarith), if_neg (by rintro ⟨-, h⟩; linarith),
      if_neg (by rintro ⟨-, h⟩; linarith), if_neg (by rintro ⟨-, h⟩; linarith), if_pos ⟨h1, h2⟩]
  exact clamp_id (by linarith) (by linarith)

theorem aqi_eval_b5 (p : ℚ) (h1 : 501/2 ≤ p) (h2 : p ≤ 1752/5) :
    calculate_aqi p = (400 - 301) / (1752/5 - 501/2) * (p - 501/2) + 301 := by
  have hcl : maxQ 0 (minQ p 1000) = p := by
    rw [maxQ_eq, minQ_eq, min_eq_left (by linarith), max_eq_right (by linarith)]
  unfold calculate_aqi aqi_breakpoints
  rw [hcl]
  simp only [aqiScan]
  rw [if_neg (by rintro ⟨-, h⟩; linarith), if_neg (by rintro ⟨-, h⟩; linarith),
      if_neg (by rintro ⟨-, h⟩; linarith), if_neg (by rintro ⟨-, h⟩; linarith),
      if_neg (by rintro ⟨-, h⟩; linarith), if_pos ⟨h1, h2⟩]
  exact clamp_id (by linarith) (by linarith)

theorem aqi_eval_b6 (p : ℚ) (h1 : 701/2 ≤ p) (h2 : p ≤ 2502/5) :
    calculate_aqi p = (500 - 401) / (2502/5 - 701/2) * (p - 701/2) + 401 := by
  have hcl : maxQ 0 (minQ p 1000) = p := by
    rw [maxQ_eq, minQ_eq, min_eq_left (by linarith), max_eq_right (by linarith)]
  unfold calculate_aqi aqi_breakpoints
  rw [hcl]
  simp only [aqiScan]
  rw [if_neg (by rintro ⟨-, h⟩; linarith), if_neg (by rintro ⟨-, h⟩; linarith),
      if_neg (by rintro ⟨-, h⟩; linarith), if_neg (by rintro ⟨-, h⟩; linarith),
      if_neg (by rintro ⟨-, h⟩; linarith), if_neg (by rintro ⟨-, h⟩; linarith), if_pos ⟨h1, h2⟩]
  exact clamp_id (by linarith) (by linarith)

theorem aqi_eval_top (p : ℚ) (h : 2502/5 < p) : calculate_aqi p = 500 := by
  rcases le_or_lt p 1000 with hp | hp
  · have hcl : maxQ 0 (minQ p 1000) = p := by
      rw [maxQ_eq, minQ_eq, min_eq_left hp, max_eq_right (by linarith)]
    unfold calculate_aqi aqi_breakpoints
    rw [hcl]
    simp only [aqiScan]
    rw [if_neg (by rintro ⟨-, hx⟩; linarith), if_neg (by rintro ⟨-, hx⟩; linarith),
        if_neg (by rintro ⟨-, hx⟩; linarith), if_neg (by rintro ⟨-, hx⟩; linarith),
        if_neg (by rintro ⟨-, hx⟩; linarith), if_neg (by rintro ⟨-, hx⟩; linarith),
        if_neg (by rintro ⟨-, hx⟩; linarith)]
  · have hcl : maxQ 0 (minQ p 1000) = 1000 := by
      rw [maxQ_eq, minQ_eq, min_eq_right hp.le, max_eq_right (by norm_num)]
    unfold calculate_aqi aqi_breakpoints
    rw [hcl]
    simp only [aqiScan]
    rw [if_neg (by rintro ⟨-, hx⟩; norm_num at hx), if_neg (by rintro ⟨-, hx⟩; norm_num at hx),
        if_neg (by rintro ⟨-, hx⟩; norm_num at hx), if_neg (by rintro ⟨-, hx⟩; norm_num at hx),
        if_neg (by rintro ⟨-, hx⟩; norm_num at hx), if_neg (by rintro ⟨-, hx⟩; norm_num at hx),
        if_neg (by rintro ⟨-, hx⟩; norm_num at hx)]

theorem aqi_r0_bounds (p : ℚ) (h : p ≤ 12) : 0 ≤ calculate_aqi p ∧ calculate_aqi p ≤ 50 := by
  rcases le_or_lt p 0 with h0 | h0
  · rw [aqi_neg p h0]
    norm_num
  · rw [aqi_eval_b0 p h0.le h]
    constructor <;> linarith

theorem aqi_r1_bounds (p : ℚ) (h1 : 121/10 ≤ p) (h2 : p ≤ 177/5) :
    51 ≤ calculate_aqi p ∧ calculate_aqi p ≤ 100 := by
  rw [aqi_eval_b1 p h1 h2]
  constructor <;> linarith

theorem aqi_r2_bounds (p : ℚ) (h1 : 71/2 ≤ p) (h2 : p ≤ 277/5) :
    101 ≤ calculate_aqi p ∧ calculate_aqi p ≤ 150 := by
  rw [aqi_eval_b2 p h1 h2]
  constructor <;> linarith

theorem aqi_r3_bounds (p : ℚ) (h1 : 111/2 ≤ p) (h2 : p ≤ 752/5) :
    151 ≤ calculate_aqi p ∧ calculate_aqi p ≤ 200 := by
  rw [aqi_eval_b3 p h1 h2]
  constructor <;> linarith

theorem aqi_r4_bounds (p : ℚ) (h1 : 301/2 ≤ p) (h2 : p ≤ 1252/5) :
    201 ≤ calculate_aqi p ∧ calculate_aqi p ≤ 300 := by
  rw [aqi_eval_b4 p h1 h2]
  constructor <;> linarith

theorem aqi_r5_bounds (p : ℚ) (h1 : 501/2 ≤ p) (h2 : p ≤ 1752/5) :
    301 ≤ calculate_aqi p ∧ calculate_aqi p ≤ 400 := by
  rw [aqi_eval_b5 p h1 h2]
  constructor <;> linarith

theorem aqi_r6_bounds (p : ℚ) (h : 701/2 ≤ p) :
    401 ≤ calculate_aqi p ∧ calculate_aqi p ≤ 500 := by
  rcases le_or_lt p (2502/5) with hp | hp
  · rw [aqi_eval_b6 p h hp]
    constructor <;> linarith
  · rw [aqi_eval_top p hp]
    norm_num

theorem aqi_r0_mono (x y : ℚ) (hx : x ≤ 12) (hy : y ≤ 12) (hxy : x ≤ y) :
    calculate_aqi x ≤ calculate_aqi y := by
  rcases le_or_lt y 0 with hy0 | hy0
  · rw [aqi_neg x (le_trans hxy hy0), aqi_neg y hy0]
  · rcases le_or_lt x 0 with hx0 | hx0
    · rw [aqi_neg x hx0]
      exact (aqi_r0_bounds y hy).1
    · rw [aqi_eval_b0 x hx0.le hx, aqi_eval_b0 y hy0.le hy]
      linarith

theorem aqi_r1_mono (x y : ℚ) (hx1 : 121/10 ≤ x) (hx2 : x ≤ 177/5) (hy1 : 121/10 ≤ y)
    (hy2 : y ≤ 177/5) (hxy : x ≤ y) : calculate_aqi x ≤ calculate_aqi y := by
  rw [aqi_eval_b1 x hx1 hx2, aqi_eval_b1 y hy1 hy2]
  linarith

theorem aqi_r2_mono (x y : ℚ) (hx1 : 71/2 ≤ x) (hx2 : x ≤ 277/5) (hy1 : 71/2 ≤ y)
    (hy2 : y ≤ 277/5) (hxy : x ≤ y) : calculate_aqi x ≤ calculate_aqi y := by
  rw [aqi_eval_b2 x hx1 hx2, aqi_eval_b2 y hy1 hy2]
  linarith

theorem aqi_r3_mono (x y : ℚ) (hx1 : 111/2 ≤ x) (hx2 : x ≤ 752/5) (hy1 : 111/2 ≤ y)
    (hy2 : y ≤ 752/5) (hxy : x ≤ y) : calculate_aqi x ≤ calculate_aqi y := by
  rw [aqi_eval_b3 x hx1 hx2, aqi_eval_b3 y hy1 hy2]
  linarith

theorem aqi_r4_mono (x y : ℚ) (hx1 : 301/2 ≤ x) (hx2 : x ≤ 1252/5) (hy1 : 301/2 ≤ y)
    (hy2 : y ≤ 1252/5) (hxy : x ≤ y) : calculate_aqi x ≤ calculate_aqi y := by
  rw [aqi_eval_b4 x hx1 hx2, aqi_eval_b4 y hy1 hy2]
  linarith

theorem aqi_r5_mono (x y : ℚ) (hx1 : 501/2 ≤ x) (hx2 : x ≤ 1752/5) (hy1 : 501/2 ≤ y)
    (hy2 : y ≤ 1752/5) (hxy : x ≤ y) : calculate_aqi x ≤ calculate_aqi y := by
  rw [aqi_eval_b5 x hx1 hx2, aqi_eval_b5 y hy1 hy2]
  linarith

theorem aqi_r6_mono (x y : ℚ) (hx : 701/2 ≤ x) (hy : 701/2 ≤ y) (hxy : x ≤ y) :
    calculate_aqi x ≤ calculate_aqi y := by
  rcases le_or_lt y (2502/5) with hy5 | hy5
  · rw [aqi_eval_b6 x hx (le_trans hxy hy5), aqi_eval_b6 y hy hy5]
    linarith
  · rw [aqi_eval_top y hy5]
    exact (aqi_r6_bounds x hx).2

/-- C1 counterexample: `calculate_aqi` is NOT non-decreasing.  The input
12.05 lies in the gap between the first two breakpoint bands (12.0,
12.1), is matched by no band, and falls through to the final
`return 500`, while the larger input 12.1 maps to 51. -/
theorem c1_aqi_not_monotone_counterexample :
    (241/20 : ℚ) ≤ 121/10 ∧ calculate_aqi (241/20) = 500 ∧ calculate_aqi (121/10) = 51 ∧
    ¬ calculate_aqi (241/20) ≤ calculate_aqi (121/10) := by
  refine ⟨by norm_num, by with_unfolding_all decide, by with_unfolding_all decide,
    by with_unfolding_all decide⟩

/-- C1 (amended): `calculate_aqi` is bounded to [0,500] for every input
and returns exactly 0 at 0, 50 at 12.0 and 100 at 35.4; it is
non-decreasing on the complement of the six inter-band gaps
(`aqiInBands`): inputs inside a gap (e.g. 12.0 < pm25 < 12.1) are
matched by no breakpoint band and jump to 500, which breaks
monotonicity there (see the counterexample). -/
theorem c1_aqi_conversion :
    (∀ p : ℚ, 0 ≤ calculate_aqi p ∧ calculate_aqi p ≤ 500) ∧
    calculate_aqi 0 = 0 ∧ calculate_aqi 12 = 50 ∧ calculate_aqi (177/5) = 100 ∧
    (∀ x y : ℚ, x ≤ y → aqiInBands x → aqiInBands y →
      calculate_aqi x ≤ calculate_aqi y) := by
  refine ⟨fun p => by unfold calculate_aqi; exact aqiScan_bounds _ _,
    by with_unfolding_all decide, by with_unfolding_all decide, by with_unfolding_all decide,
    ?_⟩
  intro x y hxy hx hy
  unfold aqiInBands at hx hy
  rcases hx with hx0 | ⟨hx1, hx2⟩ | ⟨hx1, hx2⟩ | ⟨hx1, hx2⟩ | ⟨hx1, hx2⟩ | ⟨hx1, hx2⟩ | hx6
  · rcases hy with hy0 | ⟨hy1, hy2⟩ | ⟨hy1, hy2⟩ | ⟨hy1, hy2⟩ | ⟨hy1, hy2⟩ | ⟨hy1, hy2⟩ | hy6
    · exact aqi_r0_mono x y hx0 hy0 hxy
    · exact le_trans (aqi_r0_bounds x hx0).2
        (le_trans (by norm_num) (aqi_r1_bounds y hy1 hy2).1)
    · exact le_trans (aqi_r0_bounds x hx0).2
        (le_trans (by norm_num) (aqi_r2_bounds y hy1 hy2).1)
    · exact le_trans (aqi_r0_bounds x hx0).2
        (le_trans (by norm_num) (aqi_r3_bounds y hy1 hy2).1)
    · exact le_trans (aqi_r0_bounds x hx0).2
        (le_trans (by norm_num) (aqi_r4_bounds y hy1 hy2).1)
    · exact le_trans (aqi_r0_bounds x hx0).2
        (le_trans (by norm_num) (aqi_r5_bounds y hy1 hy2).1)
    · exact le_trans (aqi_r0_bounds x hx0).2
        (le_trans (by norm_num) (aqi_r6_bounds y hy6).1)
  · rcases hy with hy0 | ⟨hy1, hy2⟩ | ⟨hy1, hy2⟩ | ⟨hy1, hy2⟩ | ⟨hy1, hy2⟩ | ⟨hy1, hy2⟩ | hy6
    · exact absurd hxy (by push_neg; linarith)
    · exact aqi_r1_mono x y hx1 hx2 hy1 hy2 hxy
    · exact le_trans (aqi_r1_bounds x hx1 hx2).2
        (le_trans (by norm_num) (aqi_r2_bounds y hy1 hy2).1)
    · exact le_trans (aqi_r1_bounds x hx1 hx2).2
        (le_trans (by norm_num) (aqi_r3_bounds y hy1 hy2).1)
    · exact le_trans (aqi_r1_bounds x hx1 hx2).2
        (le_trans (by norm_num) (aqi_r4_bounds y hy1 hy2).1)
    · exact le_trans (aqi_r1_bounds x hx1 hx2).2
        (le_trans (by norm_num) (aqi_r5_bounds y hy1 hy2).1)
    · exact le_trans (aqi_r1_bounds x hx1 hx2).2
        (le_trans (by norm_num) (aqi_r6_bounds y hy6).1)
  · rcases hy with hy0 | ⟨hy1, hy2⟩ | ⟨hy1, hy2⟩ | ⟨hy1, hy2⟩ | ⟨hy1, hy2⟩ | ⟨hy1, hy2⟩ | hy6
    · exact absurd hxy (by push_neg; linarith)
    · exact absurd hxy (by push_neg; linarith)
    · exact aqi_r2_mono x y hx1 hx2 hy1 hy2 hxy
    · exact le_trans (aqi_r2_bounds x hx1 hx2).2
        (le_trans (by norm_num) (aqi_r3_bounds y hy1 hy2).1)
    · exact le_trans (aqi_r2_bounds x hx1 hx2).2
        (le_trans (by norm_num) (aqi_r4_bounds y hy1 hy2).1)
    · exact le_trans (aqi_r2_bounds x hx1 hx2).2
        (le_trans (by norm_num) (aqi_r5_bounds y hy1 hy2).1)
    · exact le_trans (aqi_r2_bounds x hx1 hx2).2
        (le_trans (by norm_num) (aqi_r6_bounds y hy6).1)
  · rcases hy with hy0 | ⟨hy1, hy2⟩ | ⟨hy1, hy2⟩ | ⟨hy1, hy2⟩ | ⟨hy1, hy2⟩ | ⟨hy1, hy2⟩ | hy6
    · exact absurd hxy (by push_neg; linarith)
    · exact absurd hxy (by push_neg; linarith)
    · exact absurd hxy (by push_neg; linarith)
    · exact aqi_r3_mono x y hx1 hx2 hy1 hy2 hxy
    · exact le_trans (aqi_r3_bounds x hx1 hx2).2
        (le_trans (by norm_num) (aqi_r4_bounds y hy1 hy2).1)
    · exact le_trans (aqi_r3_bounds x hx1 hx2).2
        (le_trans (by norm_num) (aqi_r5_bounds y hy1 hy2).1)
    · exact le_trans (aqi_r3_bounds x hx1 hx2).2
        (le_trans (by norm_num) (aqi_r6_bounds y hy6).1)
  · rcases hy with hy0 | ⟨hy1, hy2⟩ | ⟨hy1, hy2⟩ | ⟨hy1, hy2⟩ | ⟨hy1, hy2⟩ | ⟨hy1, hy2⟩ | hy6
    · exact absurd hxy (by push_neg; linarith)
    · exact absurd hxy (by push_neg; linarith)
    · exact absurd hxy (by push_neg; linarith)
    · exact absurd hxy (by push_neg; linarith)
    · exact aqi_r4_mono x y hx1 hx2 hy1 hy2 hxy
    · exact le_trans (aqi_r4_bounds x hx1 hx2).2
        (le_trans (by norm_num) (aqi_r5_bounds y hy1 hy2).1)
    · exact le_trans (aqi_r4_bounds x hx1 hx2).2
        (le_trans (by norm_num) (aqi_r6_bounds y hy6).1)
  · rcases hy with hy0 | ⟨hy1, hy2⟩ | ⟨hy1, hy2⟩ | ⟨hy1, hy2⟩ | ⟨hy1, hy2⟩ | ⟨hy1, hy2⟩ | hy6
    · exact absurd hxy (by push_neg; linarith)
    · exact absurd hxy (by push_neg; linarith)
    · exact absurd hxy (by push_neg; linarith)
    · exact absurd hxy (by push_neg; linarith)
    · exact absurd hxy (by push_neg; linarith)
    · exact aqi_r5_mono x y hx1 hx2 hy1 hy2 hxy
    · exact le_trans (aqi_r5_bounds x hx1 hx2).2
        (le_trans (by norm_num) (aqi_r6_bounds y hy6).1)
  · rcases hy with hy0 | ⟨hy1, hy2⟩ | ⟨hy1, hy2⟩ | ⟨hy1, hy2⟩ | ⟨hy1, hy2⟩ | ⟨hy1, hy2⟩ | hy6
    · exact absurd hxy (by push_neg; linarith)
    · exact absurd hxy (by push_neg; linarith)
    · exact absurd hxy (by push_neg; linarith)
    · exact absurd hxy (by push_neg; linarith)
    · exact absurd hxy (by push_neg; linarith)
    · exact absurd hxy (by push_neg; linarith)
    · exact aqi_r6_mono x y hx6 hy6 hxy

/-- Witness for C1 (amended): bounds at 7 and monotonicity across bands
at the pair (10, 100). -/
theorem c1_aqi_conversion_witness :
    0 ≤ calculate_aqi 7 ∧ calculate_aqi 7 ≤ 500 ∧ calculate_aqi 10 ≤ calculate_aqi 100 := by
  have h := c1_aqi_conversion
  refine ⟨(h.1 7).1, (h.1 7).2, ?_⟩
  refine h.2.2.2.2 10 100 (by norm_num) ?_ ?_
  · unfold aqiInBands
    left
    norm_num
  · unfold aqiInBands
    right; right; right; left
    constructor <;> norm_num
